import Mathlib

/-!
Verification development for the `aitrade` trading backend
(Reflex + Confirmation + Risk pipeline, shared state, executor,
plan ingest, position-close ingress and the backtest simulator).

Shallow embedding conventions:
* prices, spreads, RSI values and lot sizes (`f64` in the source) are
  modelled as `ℚ`; the source only adds, subtracts, halves and compares
  these quantities, so the order-theoretic behaviour is preserved exactly;
* timestamps (`DateTime<Utc>`) are modelled as `Int` seconds, calendar
  dates (`NaiveDate`) as `Int` day numbers; each call to `Utc::now()`
  becomes an explicit `now`/`today` parameter;
* `Uuid` values are modelled as `String`;
* `VecDeque` ring buffers are `List`s whose newest element is last
  (`push_back` appends, `pop_front` drops the head);
* the per-symbol `HashMap` of tick buffers is an association list keyed by
  the symbol string;
* async `RwLock` state is passed explicitly: every handler takes the
  shared `AppState` and returns the updated one;
* the broker HTTP exchange of `fire_trade` is a pure input
  (`HttpOutcome`) describing what the network returned.
-/

-- Batteries seals the `Rat` arithmetic operations behind `irreducible`,
-- which blocks `decide` on concrete rational computations.  Restore the
-- default transparency so concrete witnesses evaluate; this changes only
-- elaborator unfolding hints, not any definition or proof.
set_option allowUnsafeReducibility true

attribute [semireducible] Rat.add Rat.mul Rat.sub Rat.inv Rat.neg Rat.div

-- ═══════════════════════════ models/strategy.rs ═══════════════════════════

/-- `Direction` — the AI's directional bias (models/strategy.rs). -/
inductive Direction where
  | Buy
  | Sell
  | NoTrade
deriving DecidableEq, Repr

/-- `EntryZone` — price range authorising entry (models/strategy.rs). -/
structure EntryZone where
  low : ℚ
  high : ℚ
deriving DecidableEq, Repr

/-- `EntryZone::contains`: `price >= self.low && price <= self.high`. -/
def EntryZone.contains (z : EntryZone) (price : ℚ) : Bool :=
  decide (price ≥ z.low) && decide (price ≤ z.high)

/-- `ActiveStrategy` — the trade plan (models/strategy.rs). -/
structure ActiveStrategy where
  strategy_id : String
  symbol : String
  direction : Direction
  entry_zone : EntryZone
  take_profit : ℚ
  stop_loss : ℚ
  opposing_zone : Option EntryZone
  lot_size : ℚ
  rationale : String
  created_at : Int
  expires_at : Option Int
deriving DecidableEq, Repr

/-- `ActiveStrategy::is_valid`: not expired (`Utc::now() < expiry`), the
current instant being the explicit `now` argument. -/
def ActiveStrategy.is_valid (s : ActiveStrategy) (now : Int) : Bool :=
  match s.expires_at with
  | some expiry => decide (now < expiry)
  | none => true

-- ═══════════════════════════ models/tick.rs ═══════════════════════════

/-- `TickData` — one bid/ask quote from MT5 (models/tick.rs). -/
structure TickData where
  symbol : String
  bid : ℚ
  ask : ℚ
  mid : Option ℚ
  volume : ℚ
  spread : Option ℚ
  time : Int
  rsi_14 : Option ℚ
  ma_20 : Option ℚ
  ma_50 : Option ℚ
deriving DecidableEq, Repr

/-- `TickData::effective_mid`: the `mid` field, else `(bid + ask) / 2`. -/
def TickData.effective_mid (t : TickData) : ℚ :=
  t.mid.getD ((t.bid + t.ask) / 2)

-- ═══════════════════════════ engine/confirmation.rs ═══════════════════════════

/-- `ConfirmationConfig` (engine/confirmation.rs). -/
structure ConfirmationConfig where
  max_spread : ℚ
  require_zone_probe : Bool
  min_zone_ticks : Nat
  probe_lookback : Nat
  rsi_overbought : ℚ
  rsi_oversold : ℚ
deriving DecidableEq, Repr

/-- `RecentTick` — compact buffer element (engine/confirmation.rs). -/
structure RecentTick where
  mid : ℚ
  spread : ℚ
deriving DecidableEq, Repr

/-- `RecentTick::new`: `mid = (bid + ask) / 2`, `spread = ask - bid`. -/
def RecentTick.new (bid ask : ℚ) : RecentTick :=
  { mid := (bid + ask) / 2, spread := ask - bid }

/-- `ConfirmationResult` (engine/confirmation.rs). -/
inductive ConfirmationResult where
  | Confirmed
  | Rejected (reason : String)
deriving DecidableEq, Repr

/-- The zone-probe scan inlined in `check_confirmation` (confirmation.rs
lines 156-166): look at the `buffer.len().min(probe_lookback)` most-recent
entries (the `VecDeque` iterated in reverse, newest first) and ask whether
any of them probed the opposite side of the zone. -/
def probe_found (zone : EntryZone) (dir : Direction)
    (buffer : List RecentTick) (probe_lookback : Nat) : Bool :=
  let lookback := min buffer.length probe_lookback
  let recent := buffer.reverse.take lookback
  match dir with
  | Direction.Buy => recent.any (fun t => decide (t.mid < zone.low))
  | Direction.Sell => recent.any (fun t => decide (t.mid > zone.high))
  | Direction.NoTrade => false

/-- The zone-dwell count inlined in `check_confirmation` (confirmation.rs
lines 185-192): consecutive most-recent buffer entries whose `mid` is in
the zone, plus 1 if the current `mid` is also in the zone. -/
def dwell_total (zone : EntryZone) (buffer : List RecentTick) (mid : ℚ) : Nat :=
  (buffer.reverse.takeWhile (fun t => zone.contains t.mid)).length
    + (if zone.contains mid then 1 else 0)

/-- The RSI predicate inlined in `check_confirmation` (confirmation.rs
lines 211-217): Buy blocked when `rsi >= overbought`, Sell blocked when
`rsi <= oversold`. -/
def rsi_blocked (dir : Direction) (rsi_val : ℚ) (config : ConfirmationConfig) : Bool :=
  match dir with
  | Direction.Buy => decide (rsi_val ≥ config.rsi_overbought)
  | Direction.Sell => decide (rsi_val ≤ config.rsi_oversold)
  | Direction.NoTrade => false

/-- `check_confirmation` (engine/confirmation.rs): the four gates in fixed
order — spread, zone probe (skippable), zone dwell, RSI (skipped when
`rsi` is `None`) — each failing gate short-circuiting with its reason. -/
def check_confirmation (current_bid current_ask : ℚ) (zone : EntryZone)
    (dir : Direction) (buffer : List RecentTick) (rsi : Option ℚ)
    (config : ConfirmationConfig) : ConfirmationResult :=
  let spread := current_ask - current_bid
  let mid := (current_bid + current_ask) / 2
  if spread > config.max_spread then
    ConfirmationResult.Rejected "spread too wide"
  else if config.require_zone_probe = true
      ∧ probe_found zone dir buffer config.probe_lookback = false then
    ConfirmationResult.Rejected "no zone probe detected"
  else if dwell_total zone buffer mid < config.min_zone_ticks then
    ConfirmationResult.Rejected "insufficient zone dwell"
  else
    match rsi with
    | some rsi_val =>
      if rsi_blocked dir rsi_val config then
        ConfirmationResult.Rejected "rsi out of range"
      else
        ConfirmationResult.Confirmed
    | none => ConfirmationResult.Confirmed

/-- Configuration used by the concrete examples and witnesses below
(mirrors `make_config()` in confirmation.rs tests). -/
def exampleConfig : ConfirmationConfig :=
  { max_spread := 50, require_zone_probe := true, min_zone_ticks := 2
    probe_lookback := 10, rsi_overbought := 70, rsi_oversold := 30 }

/-- Zone `[67000, 67050]` used by the concrete examples. -/
def exampleZone : EntryZone := { low := 67000, high := 67050 }

/-- `make_buffer`: buffer entries with the given mids and spread 2. -/
def exampleBuffer (mids : List ℚ) : List RecentTick :=
  mids.map (fun m => { mid := m, spread := 2 })

-- ═══════════════════════════ models/position.rs ═══════════════════════════

/-- `TradeStatus` (models/position.rs). -/
inductive TradeStatus where
  | Pending
  | Confirmed
  | Rejected
  | Failed
deriving DecidableEq, Repr

/-- `OpenPosition` (models/position.rs). -/
structure OpenPosition where
  position_id : String
  strategy_id : String
  symbol : String
  direction : Direction
  entry_price : ℚ
  lot_size : ℚ
  take_profit : ℚ
  stop_loss : ℚ
  mt5_ticket : Option Nat
  opened_at : Int
  sl_moved_to_be : Bool
deriving DecidableEq, Repr

/-- `OpenPosition::from_strategy`; `Uuid::new_v4()` and `Utc::now()` become
the explicit `position_id` and `opened_at` arguments. -/
def OpenPosition.from_strategy (position_id : String) (opened_at : Int)
    (strategy : ActiveStrategy) (entry_price : ℚ) : OpenPosition :=
  { position_id
    strategy_id := strategy.strategy_id
    symbol := strategy.symbol
    direction := strategy.direction
    entry_price
    lot_size := strategy.lot_size
    take_profit := strategy.take_profit
    stop_loss := strategy.stop_loss
    mt5_ticket := none
    opened_at
    sl_moved_to_be := false }

/-- `TradeRecord` (models/position.rs). -/
structure TradeRecord where
  trade_id : String
  strategy_id : String
  symbol : String
  direction : Direction
  entry_price : ℚ
  lot_size : ℚ
  take_profit : ℚ
  stop_loss : ℚ
  mt5_ticket : Option Nat
  status : TradeStatus
  status_message : String
  fired_at : Int
  close_price : Option ℚ
  profit_pips : Option ℚ
  close_reason : Option String
  closed_at : Option Int
deriving DecidableEq, Repr

/-- `TradeRecord::from_strategy`; `Uuid::new_v4()` and `Utc::now()` become
the explicit `trade_id` and `fired_at` arguments. -/
def TradeRecord.from_strategy (trade_id : String) (fired_at : Int)
    (strategy : ActiveStrategy) (entry_price : ℚ) : TradeRecord :=
  { trade_id
    strategy_id := strategy.strategy_id
    symbol := strategy.symbol
    direction := strategy.direction
    entry_price
    lot_size := strategy.lot_size
    take_profit := strategy.take_profit
    stop_loss := strategy.stop_loss
    mt5_ticket := none
    status := TradeStatus.Pending
    status_message := "Order queued"
    fired_at
    close_price := none
    profit_pips := none
    close_reason := none
    closed_at := none }

-- ═══════════════════════════ risk.rs ═══════════════════════════

/-- `RiskConfig` (risk.rs). -/
structure RiskConfig where
  max_trades_per_day : Nat
  max_consecutive_failures : Nat
  cooldown_secs_after_failure : Nat
deriving DecidableEq, Repr

/-- `RiskInner` — the mutable risk state behind the manager lock (risk.rs). -/
structure RiskInner where
  is_killed : Bool
  kill_reason : Option String
  trades_today : Nat
  consecutive_failures : Nat
  last_failure_at : Option Int
  last_trade_at : Option Int
  daily_reset_date : Int
deriving DecidableEq, Repr

/-- `RiskDecision` (risk.rs). -/
inductive RiskDecision where
  | Approved
  | Blocked (reason : String)
deriving DecidableEq, Repr

/-- The daily-rollover step at the top of `pre_trade_check` (risk.rs lines
117-122): when the UTC date advanced past `daily_reset_date`, reset
`trades_today` and move the date forward. -/
def daily_reset (today : Int) (inner : RiskInner) : RiskInner :=
  if today > inner.daily_reset_date then
    { inner with trades_today := 0, daily_reset_date := today }
  else inner

/-- The cooldown test inlined in `pre_trade_check` (risk.rs lines 133-141):
a recorded failure closer than `cooldown_secs_after_failure` to `now`. -/
def in_cooldown (cfg : RiskConfig) (now : Int) (inner : RiskInner) : Bool :=
  match inner.last_failure_at with
  | some fail_time =>
    decide (now - fail_time < (cfg.cooldown_secs_after_failure : Int))
  | none => false

/-- Remaining cooldown seconds used in the blocked message (risk.rs line
137): `(cooldown - elapsed).num_seconds()`. -/
def cooldown_remaining (cfg : RiskConfig) (now : Int) (inner : RiskInner) : Int :=
  match inner.last_failure_at with
  | some fail_time => (cfg.cooldown_secs_after_failure : Int) - (now - fail_time)
  | none => 0

/-- `RiskManager::pre_trade_check` (risk.rs): daily reset, then kill
switch, cooldown, daily cap, consecutive-failure auto-kill, and finally
approval, which consumes a slot.  `Utc::now()` becomes the `today`/`now`
arguments; the state behind the lock is passed and returned explicitly. -/
def pre_trade_check (cfg : RiskConfig) (today now : Int)
    (inner0 : RiskInner) : RiskDecision × RiskInner :=
  let inner := daily_reset today inner0
  if inner.is_killed then
    (RiskDecision.Blocked
      ("Kill switch active: " ++ inner.kill_reason.getD "manual activation"),
     inner)
  else if in_cooldown cfg now inner then
    (RiskDecision.Blocked
      ("Cooldown: " ++ toString (cooldown_remaining cfg now inner)
        ++ "s remaining after last failure"),
     inner)
  else if 0 < cfg.max_trades_per_day
      ∧ inner.trades_today ≥ cfg.max_trades_per_day then
    (RiskDecision.Blocked
      ("Daily trade limit reached: " ++ toString inner.trades_today
        ++ "/" ++ toString cfg.max_trades_per_day),
     inner)
  else if 0 < cfg.max_consecutive_failures
      ∧ inner.consecutive_failures ≥ cfg.max_consecutive_failures then
    let reason := "Auto-kill: " ++ toString inner.consecutive_failures
      ++ " consecutive execution failures"
    (RiskDecision.Blocked reason,
     { inner with is_killed := true, kill_reason := some reason })
  else
    (RiskDecision.Approved,
     { inner with trades_today := inner.trades_today + 1
                  last_trade_at := some now })

/-- `RiskManager::record_success` (risk.rs): reset the failure streak. -/
def record_success (inner : RiskInner) : RiskInner :=
  { inner with consecutive_failures := 0 }

/-- `RiskManager::record_failure` (risk.rs): bump the streak and remember
the failure time (`Utc::now()` becomes the explicit `now`). -/
def record_failure (now : Int) (inner : RiskInner) : RiskInner :=
  { inner with consecutive_failures := inner.consecutive_failures + 1
               last_failure_at := some now }

-- ═══════════════════════════ state.rs ═══════════════════════════

/-- `TICK_BUFFER_SIZE` (state.rs): per-symbol tick history bound. -/
def TICK_BUFFER_SIZE : Nat := 30

/-- The `VecDeque` pop/push step inside `AppState::record_tick` (state.rs
lines 124-127): drop the oldest entry when at capacity, then append the
new sample at the back. -/
def record_tick_buffer (buf : List RecentTick) (bid ask : ℚ) : List RecentTick :=
  (if buf.length ≥ TICK_BUFFER_SIZE then buf.drop 1 else buf)
    ++ [RecentTick.new bid ask]

/-- The symbol-keyed buffer `HashMap`, as an association list. -/
abbrev TickBufferMap := List (String × List RecentTick)

/-- `HashMap::get(symbol).cloned().unwrap_or_default()` on the buffer map
(first matching key, else the empty buffer). -/
def buflookup : TickBufferMap → String → List RecentTick
  | [], _ => []
  | kv :: rest, symbol => if kv.1 == symbol then kv.2 else buflookup rest symbol

/-- `HashMap::entry(symbol).or_insert_with(default)` followed by an
in-place mutation: apply `f` to the symbol's buffer, creating the entry
from the empty buffer when absent. -/
def bufupdate (m : TickBufferMap) (symbol : String)
    (f : List RecentTick → List RecentTick) : TickBufferMap :=
  match m with
  | [] => [(symbol, f [])]
  | kv :: rest =>
    if kv.1 == symbol then (kv.1, f kv.2) :: rest
    else kv :: bufupdate rest symbol f

/-- `AppState` (state.rs), restricted to the domain data the claims are
about.  The `broadcast_tx` channel, `http_client`, `latest_candle`
candle-builder map and the db handle are omitted: no claim mentions them
and they feed no decision in the embedded operations (the candle update
inside `record_tick` writes only `latest_candle`). -/
structure AppState where
  active_strategy : Option ActiveStrategy
  open_position : Option OpenPosition
  trade_history : List TradeRecord
  tick_count : Nat
  trade_count : Nat
  tick_buffer : TickBufferMap
  confirmation_config : ConfirmationConfig
  risk : RiskInner
  risk_config : RiskConfig
deriving DecidableEq, Repr

/-- `AppState::has_open_position_for` (state.rs): the stored position's
symbol equals the argument by exact string equality, `false` when no
position is open. -/
def has_open_position_for (st : AppState) (symbol : String) : Bool :=
  match st.open_position with
  | some p => p.symbol == symbol
  | none => false

/-- `AppState::record_tick` (state.rs): pop/push the symbol's buffer at
capacity `TICK_BUFFER_SIZE` (the candle-builder update that follows in the
source touches only `latest_candle`, which is not modelled). -/
def record_tick (st : AppState) (symbol : String) (bid ask : ℚ) : AppState :=
  { st with tick_buffer :=
      bufupdate st.tick_buffer symbol (fun b => record_tick_buffer b bid ask) }

/-- `AppState::get_tick_buffer` (state.rs): clone the symbol's buffer. -/
def get_tick_buffer (st : AppState) (symbol : String) : List RecentTick :=
  buflookup st.tick_buffer symbol

/-- `AppState::set_open_position` (state.rs). -/
def set_open_position (st : AppState) (position : Option OpenPosition) : AppState :=
  { st with open_position := position }

/-- `AppState::push_trade_record` (state.rs). -/
def push_trade_record (st : AppState) (record : TradeRecord) : AppState :=
  { st with trade_history := st.trade_history ++ [record] }

-- ═══════════════════════════ routes/brain.rs ═══════════════════════════

/-- The JSON body returned by `set_strategy` together with its HTTP
status code. -/
structure SetStrategyResponse where
  ok : Bool
  strategy_id : String
  status : Nat
deriving DecidableEq, Repr

/-- `set_strategy` (routes/brain.rs): install (or replace) the
`ActiveStrategy` in shared state and answer 201.  The handler performs no
validation of the payload beyond deserialization. -/
def set_strategy (st : AppState) (strategy : ActiveStrategy) :
    SetStrategyResponse × AppState :=
  ({ ok := true, strategy_id := strategy.strategy_id, status := 201 },
   { st with active_strategy := some strategy })

/-- `clear_strategy` (routes/brain.rs). -/
def clear_strategy (st : AppState) : AppState :=
  { st with active_strategy := none }

-- ═══════════════════════════ engine/reflex.rs ═══════════════════════════

/-- `TradeSignal` (engine/reflex.rs). -/
inductive TradeSignal where
  | Trigger (strategy : ActiveStrategy)
  | NoAction
deriving DecidableEq, Repr

/-- `evaluate_tick` (engine/reflex.rs): record the tick into the buffer
before every guard, bump the tick counter, then run the guard ladder —
plan present, symbol match, not expired, direction actionable, no open
position for the symbol, execution-side price inside the entry zone — and
finally the confirmation engine, passing the tick's `rsi_14`.  The
`Direction::NoTrade => unreachable!()` arm of the entry-price match is
subsumed by the preceding NoTrade guard. -/
def evaluate_tick (now : Int) (tick : TickData) (st : AppState) :
    TradeSignal × AppState :=
  let st1 := { record_tick st tick.symbol tick.bid tick.ask with
               tick_count := st.tick_count + 1 }
  match st1.active_strategy with
  | none => (TradeSignal.NoAction, st1)
  | some strategy =>
    if strategy.symbol ≠ tick.symbol then (TradeSignal.NoAction, st1)
    else if strategy.is_valid now = false then (TradeSignal.NoAction, st1)
    else if strategy.direction = Direction.NoTrade then (TradeSignal.NoAction, st1)
    else if has_open_position_for st1 tick.symbol then (TradeSignal.NoAction, st1)
    else
      let entry_price :=
        match strategy.direction with
        | Direction.Buy => tick.ask
        | _ => tick.bid
      if strategy.entry_zone.contains entry_price = false then
        (TradeSignal.NoAction, st1)
      else
        let tick_buffer := get_tick_buffer st1 tick.symbol
        match check_confirmation tick.bid tick.ask strategy.entry_zone
            strategy.direction tick_buffer tick.rsi_14
            st1.confirmation_config with
        | ConfirmationResult.Rejected _ => (TradeSignal.NoAction, st1)
        | ConfirmationResult.Confirmed =>
          (TradeSignal.Trigger strategy,
           { st1 with trade_count := st1.trade_count + 1 })

-- ═══════════════════════════ error.rs ═══════════════════════════

/-- `AppError` (error.rs); the `Internal` payload is its message. -/
inductive AppError where
  | BadRequest (msg : String)
  | NotFound (msg : String)
  | ExecutionError (msg : String)
  | Internal (msg : String)
deriving DecidableEq, Repr

/-- `Display for AppError` (`thiserror` messages in error.rs), used for
`e.to_string()` on the failed-trade path. -/
def AppError.message : AppError → String
  | AppError.BadRequest msg => "Bad request: " ++ msg
  | AppError.NotFound msg => "Not found: " ++ msg
  | AppError.ExecutionError msg => "Trade execution error: " ++ msg
  | AppError.Internal msg => "Internal error: " ++ msg

-- ═══════════════════════════ engine/executor.rs ═══════════════════════════

/-- `Mt5OrderRequest` (engine/executor.rs). -/
structure Mt5OrderRequest where
  symbol : String
  action : String
  volume : ℚ
  price : ℚ
  sl : ℚ
  tp : ℚ
  comment : String
  magic : Nat
deriving DecidableEq, Repr

/-- `Mt5OrderResponse` (engine/executor.rs). -/
structure Mt5OrderResponse where
  retcode : Nat
  order : Option Nat
  comment : Option String
deriving DecidableEq, Repr

/-- `build_order` (engine/executor.rs): NoTrade is a `BadRequest`, the
comment carries the first 8 characters of the strategy id, magic 420001. -/
def build_order (symbol : String) (direction : Direction) (entry_price : ℚ)
    (sl tp lot_size : ℚ) (strategy_id : String) :
    Except AppError Mt5OrderRequest :=
  match direction with
  | Direction.NoTrade =>
    Except.error (AppError.BadRequest "Cannot build order for NoTrade direction")
  | Direction.Buy =>
    Except.ok { symbol, action := "BUY", volume := lot_size,
                price := entry_price, sl, tp,
                comment := "AGV-" ++ strategy_id.take 8, magic := 420001 }
  | Direction.Sell =>
    Except.ok { symbol, action := "SELL", volume := lot_size,
                price := entry_price, sl, tp,
                comment := "AGV-" ++ strategy_id.take 8, magic := 420001 }

/-- What the network returned for the `POST {base}/order/send` call, as a
pure input: either the transport failed, or an HTTP response arrived with
a status, a body text and the result of JSON-decoding the body into
`Mt5OrderResponse` (`none` when the body does not parse). -/
inductive HttpOutcome where
  | NetErr (msg : String)
  | Response (status : Nat) (body : String) (parsed : Option Mt5OrderResponse)
deriving DecidableEq, Repr

/-- `reqwest::StatusCode::is_success()`: `200 ≤ status ≤ 299`. -/
def http_success (status : Nat) : Bool :=
  decide (200 ≤ status) && decide (status ≤ 299)

/-- `fire_trade` (engine/executor.rs): the `"mock"` sentinel endpoint
short-circuits before the HTTP call with a synthetic ticket-999999
success; otherwise transport errors, non-2xx statuses, unparseable bodies
and every retcode other than 10009 are `ExecutionError`s, and a 10009
response is returned as-is. -/
def fire_trade (mt5_base_url : String) (http : HttpOutcome) :
    Except AppError Mt5OrderResponse :=
  if mt5_base_url == "mock" then
    Except.ok { retcode := 10009, order := some 999999,
                comment := some "Mock Order" }
  else
    match http with
    | HttpOutcome.NetErr msg =>
      Except.error (AppError.ExecutionError ("MT5 unreachable: " ++ msg))
    | HttpOutcome.Response status body parsed =>
      if http_success status = false then
        Except.error (AppError.ExecutionError
          ("MT5 HTTP " ++ toString status ++ ": " ++ body))
      else
        match parsed with
        | none =>
          Except.error (AppError.ExecutionError "MT5 response parse error")
        | some mt5_resp =>
          if mt5_resp.retcode ≠ 10009 then
            Except.error (AppError.ExecutionError
              ("MT5 rejected: retcode=" ++ toString mt5_resp.retcode
                ++ " comment=" ++ mt5_resp.comment.getD "unknown"))
          else
            Except.ok mt5_resp

-- ═══════════════════════════ routes/mt5.rs — handle_tick ═══════════════════════════

/-- The JSON responses of `POST /api/mt5/tick` (routes/mt5.rs). -/
inductive TickResponse where
  | noAction
  | riskBlocked (reason : String)
  | tradeTriggered (mt5_ticket : Option Nat)
  | executionFailed (e : AppError)
deriving DecidableEq, Repr

/-- The data in flight at the broker call of `handle_tick` (routes/mt5.rs
step 7): the state as it is when `fire_trade` is awaited — with the
active plan already consumed — plus the order, the pending record and the
triggering strategy. -/
structure PreBroker where
  st : AppState
  order : Mt5OrderRequest
  record : TradeRecord
  strategy : ActiveStrategy
  entry_price : ℚ
deriving DecidableEq, Repr

/-- `handle_tick` split at its unique suspension on broker I/O: either the
request is answered without any broker call, or the handler is about to
post the order. -/
inductive DispatchStage where
  | done (resp : TickResponse) (st : AppState)
  | callBroker (pb : PreBroker)
deriving DecidableEq, Repr

/-- Steps 1-6 of `handle_tick` (routes/mt5.rs lines 33-101): reflex
evaluation, risk check, entry price, order build, pending `TradeRecord`
(the `TradeFiring` broadcast touches no modelled state) and the plan
consume — `active_strategy := None` — which precedes the broker call. -/
def handle_tick_pre (now today : Int) (trade_id : String)
    (st : AppState) (tick : TickData) : DispatchStage :=
  let (signal, st1) := evaluate_tick now tick st
  match signal with
  | TradeSignal.NoAction => DispatchStage.done TickResponse.noAction st1
  | TradeSignal.Trigger strategy =>
    let (decision, risk1) := pre_trade_check st1.risk_config today now st1.risk
    let st2 := { st1 with risk := risk1 }
    match decision with
    | RiskDecision.Blocked reason =>
      DispatchStage.done (TickResponse.riskBlocked reason) st2
    | RiskDecision.Approved =>
      let entry_price :=
        match strategy.direction with
        | Direction.Buy => tick.ask
        | Direction.Sell => tick.bid
        | Direction.NoTrade => tick.effective_mid
      match build_order strategy.symbol strategy.direction entry_price
          strategy.stop_loss strategy.take_profit strategy.lot_size
          strategy.strategy_id with
      | Except.error e =>
        DispatchStage.done (TickResponse.executionFailed e) st2
      | Except.ok order =>
        let record := TradeRecord.from_strategy trade_id now strategy entry_price
        let st3 := { st2 with active_strategy := none }
        DispatchStage.callBroker
          { st := st3, order, record, strategy, entry_price }

/-- Steps 7a/7b of `handle_tick` (routes/mt5.rs lines 107-161): on broker
success mark the record `Confirmed`, install the `OpenPosition`, append
the record and reset the failure streak; on failure mark it `Failed`,
append it and record the failure. -/
def handle_tick_post (position_id : String) (now : Int) (pb : PreBroker)
    (result : Except AppError Mt5OrderResponse) : TickResponse × AppState :=
  match result with
  | Except.ok mt5_resp =>
    let record := { pb.record with
      status := TradeStatus.Confirmed
      mt5_ticket := mt5_resp.order
      status_message := mt5_resp.comment.getD "Request completed" }
    let position := { OpenPosition.from_strategy position_id now pb.strategy
        pb.entry_price with mt5_ticket := mt5_resp.order }
    let st := { push_trade_record (set_open_position pb.st (some position))
        record with risk := record_success pb.st.risk }
    (TickResponse.tradeTriggered mt5_resp.order, st)
  | Except.error e =>
    let record := { pb.record with
      status := TradeStatus.Failed
      status_message := e.message }
    let st := { push_trade_record pb.st record with
      risk := record_failure now pb.st.risk }
    (TickResponse.executionFailed e, st)

/-- `handle_tick` (routes/mt5.rs), the two stages composed around the
broker exchange. -/
def handle_tick (now today : Int) (trade_id position_id : String)
    (mt5_base_url : String) (http : HttpOutcome)
    (st : AppState) (tick : TickData) : TickResponse × AppState :=
  match handle_tick_pre now today trade_id st tick with
  | DispatchStage.done resp st1 => (resp, st1)
  | DispatchStage.callBroker pb =>
    handle_tick_post position_id now pb (fire_trade mt5_base_url http)

-- ═══════════════════════════ routes/mt5.rs — handle_position_close ═══════════════════════════

/-- `PositionClosePayload` (routes/mt5.rs). -/
structure PositionClosePayload where
  mt5_ticket : Option Nat
  symbol : String
  close_price : ℚ
  profit_pips : ℚ
  close_reason : String
deriving DecidableEq, Repr

/-- The search predicate of `handle_position_close` (routes/mt5.rs line
199): one pass over the history looking for
`r.mt5_ticket == payload.mt5_ticket || r.symbol == payload.symbol`. -/
def close_matches (payload : PositionClosePayload) (r : TradeRecord) : Bool :=
  r.mt5_ticket == payload.mt5_ticket || r.symbol == payload.symbol

/-- The close-field fill of `handle_position_close` (routes/mt5.rs lines
201-204); `Utc::now()` becomes the explicit `now`. -/
def fill_close (payload : PositionClosePayload) (now : Int)
    (r : TradeRecord) : TradeRecord :=
  { r with close_price := some payload.close_price
           profit_pips := some payload.profit_pips
           close_reason := some payload.close_reason
           closed_at := some now }

/-- `iter_mut().find(p)` followed by a mutation: rewrite the first list
element satisfying `p` by `f`, leaving everything else in place. -/
def update_first (p : TradeRecord → Bool) (f : TradeRecord → TradeRecord) :
    List TradeRecord → List TradeRecord
  | [] => []
  | r :: rest => if p r then f r :: rest else r :: update_first p f rest

/-- The JSON body returned by `handle_position_close`. -/
inductive CloseResponse where
  | closed (symbol : String)
  | nothingToClose
deriving DecidableEq, Repr

/-- `handle_position_close` (routes/mt5.rs lines 181-241): when a position
is open, clear it and fill the close fields of the first history record
matched by `close_matches`; otherwise answer a soft "nothing to close". -/
def handle_position_close (now : Int) (st : AppState)
    (payload : PositionClosePayload) : CloseResponse × AppState :=
  match st.open_position with
  | some pos =>
    let history := update_first (close_matches payload) (fill_close payload now)
      st.trade_history
    (CloseResponse.closed pos.symbol,
     { st with open_position := none, trade_history := history })
  | none => (CloseResponse.nothingToClose, st)

-- ═══════════════════════════ routes/backtest.rs ═══════════════════════════

/-- The buffer feed inlined at the top of the `simulate` loop
(backtest.rs lines 123-124): identical pop/push at capacity 30. -/
def simulate_push (buf : List RecentTick) (bid ask : ℚ) : List RecentTick :=
  (if buf.length ≥ 30 then buf.drop 1 else buf) ++ [RecentTick.new bid ask]

/-- The backtest tick buffer after replaying a tick list from empty
(`simulate`, backtest.rs): every tick of the request is pushed before any
other per-tick processing. -/
def simulate_buffer (ticks : List TickData) : List RecentTick :=
  ticks.foldl (fun buf t => simulate_push buf t.bid t.ask) []

/-- The live shared state after replaying a tick list through
`evaluate_tick` (one `POST /api/mt5/tick` per element, in order). -/
def live_replay (now : Int) (ticks : List TickData) (st : AppState) : AppState :=
  ticks.foldl (fun s t => (evaluate_tick now t s).2) st

-- ═══════════════════════════ concrete fixtures ═══════════════════════════

/-- A fresh risk state, as built by `RiskManager::new` at day 0. -/
def emptyRisk : RiskInner :=
  { is_killed := false, kill_reason := none, trades_today := 0
    consecutive_failures := 0, last_failure_at := none
    last_trade_at := none, daily_reset_date := 0 }

/-- The `RiskConfig::from_env` defaults (10 / 3 / 300). -/
def defaultRiskConfig : RiskConfig :=
  { max_trades_per_day := 10, max_consecutive_failures := 3
    cooldown_secs_after_failure := 300 }

/-- A fresh `AppState` (as `build_state` produces, with the example
confirmation config). -/
def st0 : AppState :=
  { active_strategy := none, open_position := none, trade_history := []
    tick_count := 0, trade_count := 0, tick_buffer := []
    confirmation_config := exampleConfig, risk := emptyRisk
    risk_config := defaultRiskConfig }

/-- The spec §8 scenario-7 plan: Buy BTCUSD in `[67000, 67050]`,
SL 66950, TP 67200, lot 0.1. -/
def examplePlan : ActiveStrategy :=
  { strategy_id := "0a1b2c3d-4e5f", symbol := "BTCUSD"
    direction := Direction.Buy, entry_zone := exampleZone
    take_profit := 67200, stop_loss := 66950, opposing_zone := none
    lot_size := 1/10, rationale := "support retest bounce"
    created_at := 0, expires_at := none }

/-- A plan violating every §3 ingest invariant: Buy with
`stop_loss ≥ entry_zone.high`, `take_profit ≤ entry_zone.high`,
`lot_size = 0` and an expiry before its creation. -/
def badPlan : ActiveStrategy :=
  { examplePlan with stop_loss := 67100, take_profit := 67010
                     lot_size := 0, created_at := 10, expires_at := some 3 }

/-- A tick in the example zone with spread 2 and no RSI. -/
def exampleTick : TickData :=
  { symbol := "BTCUSD", bid := 67025, ask := 67027, mid := none
    volume := 0, spread := none, time := 0, rsi_14 := none
    ma_20 := none, ma_50 := none }

/-- A state armed with `examplePlan` whose buffer already shows a probe
below the zone followed by in-zone dwell (spec §8 scenario 3). -/
def armedState : AppState :=
  { st0 with active_strategy := some examplePlan
             tick_buffer := [("BTCUSD", exampleBuffer [66980, 66995, 67010, 67020])] }

/-- `armedState` with the kill switch already latched. -/
def killedState : AppState :=
  { armedState with risk := { emptyRisk with is_killed := true } }

/-- A history record on BTCUSD with broker ticket 1. -/
def recA : TradeRecord :=
  { TradeRecord.from_strategy "trade-a" 0 examplePlan 67010 with
    mt5_ticket := some 1 }

/-- A history record on BTCUSD with broker ticket 2. -/
def recB : TradeRecord :=
  { TradeRecord.from_strategy "trade-b" 0 examplePlan 67012 with
    mt5_ticket := some 2 }

/-- An open BTCUSD position mirroring `examplePlan`. -/
def examplePosition : OpenPosition :=
  OpenPosition.from_strategy "pos-1" 0 examplePlan 67025

/-- A state with an open position and the two-record history
`[recA, recB]`. -/
def closeState : AppState :=
  { st0 with open_position := some examplePosition
             trade_history := [recA, recB] }

/-- A close notification whose ticket matches `recB` (ticket 2) and whose
symbol matches both records. -/
def closePayload : PositionClosePayload :=
  { mt5_ticket := some 2, symbol := "BTCUSD", close_price := 67200
    profit_pips := 175, close_reason := "TP" }

/-- Risk config with a one-trade daily cap, auto-kill threshold 1 and no
cooldown. -/
def cfgC5 : RiskConfig :=
  { max_trades_per_day := 1, max_consecutive_failures := 1
    cooldown_secs_after_failure := 0 }

/-- Risk state that has already consumed its single daily slot. -/
def innerC5 : RiskInner := { emptyRisk with trades_today := 1 }

/-- Two BTCUSD ticks used to replay live and backtest side by side. -/
def replayTicks : List TickData :=
  [{ exampleTick with bid := 66979, ask := 66981 },
   { exampleTick with bid := 67010, ask := 67012 }]

-- ═══════════════════════════ spec §3 — ingest invariants ═══════════════════════════

/-- Modelled from the spec: the plan invariants §3 declares "enforced at
ingest" — for Buy `stop_loss < entry_zone.low ≤ entry_zone.high <
take_profit`, mirrored for Sell, `lot_size > 0` and, when an expiry is
present, `expiry > created`.  No code under src/ checks these; this
predicate exists to compare the ingest handler against the spec's words
(claim C1). -/
def plan_invariants (s : ActiveStrategy) : Bool :=
  (match s.direction with
   | Direction.Buy =>
     decide (s.stop_loss < s.entry_zone.low)
       && decide (s.entry_zone.low ≤ s.entry_zone.high)
       && decide (s.entry_zone.high < s.take_profit)
   | Direction.Sell =>
     decide (s.take_profit < s.entry_zone.low)
       && decide (s.entry_zone.low ≤ s.entry_zone.high)
       && decide (s.entry_zone.high < s.stop_loss)
   | Direction.NoTrade => true)
  && decide (s.lot_size > 0)
  && (match s.expires_at with
      | some expiry => decide (expiry > s.created_at)
      | none => true)

/-- The state component of a dispatch stage: the response state of a
finished request, or the state handed to the broker call. -/
def stage_state : DispatchStage → AppState
  | DispatchStage.done _ st => st
  | DispatchStage.callBroker pb => pb.st

/-- Whether a dispatch stage finished with the risk-blocked response. -/
def stage_is_blocked : DispatchStage → Bool
  | DispatchStage.done (TickResponse.riskBlocked _) _ => true
  | _ => false

/-- Whether a dispatch stage is about to call the broker. -/
def stage_is_call : DispatchStage → Bool
  | DispatchStage.callBroker _ => true
  | _ => false

/-- A state whose BTCUSD buffer is at full capacity (30 entries). -/
def fullBufState : AppState :=
  { st0 with tick_buffer := [("BTCUSD", exampleBuffer (List.replicate 30 67010))] }

/-- A concrete in-flight broker call: `examplePlan` triggered at 67027
with the plan already consumed. -/
def examplePreBroker : PreBroker :=
  { st := { armedState with active_strategy := none }
    order := { symbol := "BTCUSD", action := "BUY", volume := 1/10
               price := 67027, sl := 66950, tp := 67200
               comment := "AGV-0a1b2c3d", magic := 420001 }
    record := TradeRecord.from_strategy "trade-1" 0 examplePlan 67027
    strategy := examplePlan
    entry_price := 67027 }

-- ═══════════════════════════ helper lemmas ═══════════════════════════

theorem buflookup_bufupdate_self (m : TickBufferMap) (symbol : String)
    (f : List RecentTick → List RecentTick) :
    buflookup (bufupdate m symbol f) symbol = f (buflookup m symbol) := by
  induction m with
  | nil => simp [bufupdate, buflookup]
  | cons kv rest ih =>
    by_cases h : kv.1 == symbol
    · simp [bufupdate, buflookup, h]
    · simp [bufupdate, buflookup, h, ih]

theorem record_tick_buffer_getLast (buf : List RecentTick) (bid ask : ℚ) :
    (record_tick_buffer buf bid ask).getLast? = some (RecentTick.new bid ask) := by
  unfold record_tick_buffer
  exact List.getLast?_concat _

theorem record_tick_buffer_length_le (buf : List RecentTick) (bid ask : ℚ)
    (h : buf.length ≤ TICK_BUFFER_SIZE) :
    (record_tick_buffer buf bid ask).length ≤ TICK_BUFFER_SIZE := by
  unfold record_tick_buffer
  by_cases hfull : buf.length ≥ TICK_BUFFER_SIZE
  · have heq : buf.length = TICK_BUFFER_SIZE := le_antisymm h hfull
    simp [hfull, List.length_drop, heq, TICK_BUFFER_SIZE]
  · simp only [hfull, if_false, List.length_append, List.length_cons,
      List.length_nil]
    omega

theorem record_tick_buffer_full (buf : List RecentTick) (bid ask : ℚ)
    (h : buf.length = TICK_BUFFER_SIZE) :
    record_tick_buffer buf bid ask = buf.drop 1 ++ [RecentTick.new bid ask] := by
  unfold record_tick_buffer
  simp [h]

theorem simulate_push_eq_record_tick_buffer (buf : List RecentTick) (bid ask : ℚ) :
    simulate_push buf bid ask = record_tick_buffer buf bid ask := rfl

theorem evaluate_tick_tick_buffer (now : Int) (tick : TickData) (st : AppState) :
    (evaluate_tick now tick st).2.tick_buffer
      = bufupdate st.tick_buffer tick.symbol
          (fun b => record_tick_buffer b tick.bid tick.ask) := by
  unfold evaluate_tick record_tick
  dsimp only
  repeat' split
  all_goals rfl

theorem evaluate_tick_active_strategy (now : Int) (tick : TickData) (st : AppState) :
    (evaluate_tick now tick st).2.active_strategy = st.active_strategy := by
  unfold evaluate_tick record_tick
  dsimp only
  repeat' split
  all_goals rfl

theorem evaluate_tick_open_position (now : Int) (tick : TickData) (st : AppState) :
    (evaluate_tick now tick st).2.open_position = st.open_position := by
  unfold evaluate_tick record_tick
  dsimp only
  repeat' split
  all_goals rfl

theorem evaluate_tick_no_plan (now : Int) (tick : TickData) (st : AppState)
    (h : st.active_strategy = none) :
    (evaluate_tick now tick st).1 = TradeSignal.NoAction := by
  unfold evaluate_tick record_tick
  simp [h]

theorem record_failure_iterate (t : Int) (n : Nat) (inner : RiskInner) :
    (fun i => record_failure t i)^[n + 1] inner
      = { inner with
          consecutive_failures := inner.consecutive_failures + (n + 1)
          last_failure_at := some t } := by
  induction n with
  | zero => rfl
  | succ m ih =>
    rw [Function.iterate_succ_apply', ih]
    simp [record_failure]
    omega

theorem update_first_append (p : TradeRecord → Bool) (f : TradeRecord → TradeRecord)
    (pre : List TradeRecord) (r : TradeRecord) (post : List TradeRecord)
    (hpre : ∀ x ∈ pre, p x = false) (hr : p r = true) :
    update_first p f (pre ++ r :: post) = pre ++ f r :: post := by
  induction pre with
  | nil => simp [update_first, hr]
  | cons x rest ih =>
    have hx : p x = false := hpre x (List.mem_cons_self x rest)
    simp only [List.cons_append, update_first, hx, Bool.false_eq_true, if_false,
      List.cons.injEq, true_and]
    exact ih (fun y hy => hpre y (List.mem_cons_of_mem x hy))

theorem live_replay_buffer (now : Int) (sym : String) (ticks : List TickData) :
    ∀ st : AppState, (∀ t ∈ ticks, t.symbol = sym) →
    buflookup (live_replay now ticks st).tick_buffer sym
      = ticks.foldl (fun b t => simulate_push b t.bid t.ask)
          (buflookup st.tick_buffer sym) := by
  induction ticks with
  | nil => intro st _; rfl
  | cons t rest ih =>
    intro st hsym
    have ht : t.symbol = sym := hsym t (List.mem_cons_self t rest)
    have hrest : ∀ x ∈ rest, x.symbol = sym :=
      fun x hx => hsym x (List.mem_cons_of_mem t hx)
    show buflookup (live_replay now rest ((evaluate_tick now t st).2)).tick_buffer sym = _
    rw [ih _ hrest, List.foldl_cons]
    congr 1
    rw [evaluate_tick_tick_buffer, ht, buflookup_bufupdate_self]
    rfl

-- Sanity examples: the spec's concrete scenarios 1-5 and the RSI cases
-- evaluated on the embedding.

example :
    check_confirmation 67020 67080 exampleZone Direction.Buy
      (exampleBuffer [66990, 67020, 67025]) none exampleConfig
      = ConfirmationResult.Rejected "spread too wide" := by decide

example :
    check_confirmation 67020 67022 exampleZone Direction.Buy
      (exampleBuffer [67010, 67015, 67020]) none exampleConfig
      = ConfirmationResult.Rejected "no zone probe detected" := by decide

example :
    check_confirmation 67025 67027 exampleZone Direction.Buy
      (exampleBuffer [66980, 66995, 67010, 67020]) none exampleConfig
      = ConfirmationResult.Confirmed := by decide

example :
    check_confirmation 67028 67030 exampleZone Direction.Sell
      (exampleBuffer [67070, 67060, 67040, 67030]) none exampleConfig
      = ConfirmationResult.Confirmed := by decide

example :
    check_confirmation 67005 67007 exampleZone Direction.Buy
      (exampleBuffer [66985, 66990, 66999]) none exampleConfig
      = ConfirmationResult.Rejected "insufficient zone dwell" := by decide

example :
    check_confirmation 67025 67027 exampleZone Direction.Buy
      (exampleBuffer [66980, 66995, 67010, 67020]) (some 75) exampleConfig
      = ConfirmationResult.Rejected "rsi out of range" := by decide

example :
    check_confirmation 67025 67027 exampleZone Direction.Buy
      (exampleBuffer [66980, 66995, 67010, 67020]) (some 55) exampleConfig
      = ConfirmationResult.Confirmed := by decide

theorem check_confirmation_eq (bid ask : ℚ) (zone : EntryZone) (dir : Direction)
    (buffer : List RecentTick) (rsi : Option ℚ) (cfg : ConfirmationConfig) :
    check_confirmation bid ask zone dir buffer rsi cfg =
      if ask - bid > cfg.max_spread then
        ConfirmationResult.Rejected "spread too wide"
      else if cfg.require_zone_probe = true
          ∧ probe_found zone dir buffer cfg.probe_lookback = false then
        ConfirmationResult.Rejected "no zone probe detected"
      else if dwell_total zone buffer ((bid + ask) / 2) < cfg.min_zone_ticks then
        ConfirmationResult.Rejected "insufficient zone dwell"
      else
        match rsi with
        | some rsi_val =>
          if rsi_blocked dir rsi_val cfg then
            ConfirmationResult.Rejected "rsi out of range"
          else ConfirmationResult.Confirmed
        | none => ConfirmationResult.Confirmed := rfl

-- ═══════════════════════════ claim theorems ═══════════════════════════

/-- C7: confirmation threshold boundaries.  A spread exactly equal to
`max_spread` passes the spread gate while a strictly greater one is
rejected with `"spread too wide"`; once the spread and probe gates pass, a
total dwell exactly equal to `min_zone_ticks` passes the dwell gate while
one less is rejected with `"insufficient zone dwell"`; and for Buy, once
all earlier gates pass, an RSI exactly equal to `rsi_overbought` is
rejected with `"rsi out of range"` while one less yields `Confirmed`. -/
theorem c7_confirmation_boundaries (bid ask : ℚ) (zone : EntryZone)
    (dir : Direction) (buffer : List RecentTick) (rsi : Option ℚ)
    (cfg : ConfirmationConfig) :
    (ask - bid = cfg.max_spread →
      check_confirmation bid ask zone dir buffer rsi cfg
        ≠ ConfirmationResult.Rejected "spread too wide")
    ∧ (ask - bid > cfg.max_spread →
      check_confirmation bid ask zone dir buffer rsi cfg
        = ConfirmationResult.Rejected "spread too wide")
    ∧ (ask - bid ≤ cfg.max_spread →
      (cfg.require_zone_probe = false
        ∨ probe_found zone dir buffer cfg.probe_lookback = true) →
      dwell_total zone buffer ((bid + ask) / 2) = cfg.min_zone_ticks →
      check_confirmation bid ask zone dir buffer rsi cfg
        ≠ ConfirmationResult.Rejected "insufficient zone dwell")
    ∧ (ask - bid ≤ cfg.max_spread →
      (cfg.require_zone_probe = false
        ∨ probe_found zone dir buffer cfg.probe_lookback = true) →
      dwell_total zone buffer ((bid + ask) / 2) + 1 = cfg.min_zone_ticks →
      check_confirmation bid ask zone dir buffer rsi cfg
        = ConfirmationResult.Rejected "insufficient zone dwell")
    ∧ (dir = Direction.Buy →
      ask - bid ≤ cfg.max_spread →
      (cfg.require_zone_probe = false
        ∨ probe_found zone dir buffer cfg.probe_lookback = true) →
      cfg.min_zone_ticks ≤ dwell_total zone buffer ((bid + ask) / 2) →
      check_confirmation bid ask zone dir buffer (some cfg.rsi_overbought) cfg
        = ConfirmationResult.Rejected "rsi out of range")
    ∧ (dir = Direction.Buy →
      ask - bid ≤ cfg.max_spread →
      (cfg.require_zone_probe = false
        ∨ probe_found zone dir buffer cfg.probe_lookback = true) →
      cfg.min_zone_ticks ≤ dwell_total zone buffer ((bid + ask) / 2) →
      check_confirmation bid ask zone dir buffer (some (cfg.rsi_overbought - 1)) cfg
        = ConfirmationResult.Confirmed) := by
  have hprobe : ∀ h : (cfg.require_zone_probe = false
      ∨ probe_found zone dir buffer cfg.probe_lookback = true),
      ¬ (cfg.require_zone_probe = true
        ∧ probe_found zone dir buffer cfg.probe_lookback = false) := by
    rintro (h | h) ⟨h1, h2⟩ <;> simp_all
  refine ⟨?_, ?_, ?_, ?_, ?_, ?_⟩
  · intro h
    rw [check_confirmation_eq, if_neg (by rw [h]; exact lt_irrefl _)]
    split
    · simp
    · split
      · simp
      · cases rsi with
        | none => simp
        | some r => dsimp only; split <;> simp
  · intro h
    rw [check_confirmation_eq, if_pos h]
  · intro hsp hpr hd
    rw [check_confirmation_eq, if_neg (not_lt.mpr hsp), if_neg (hprobe hpr),
      if_neg (by rw [hd]; exact lt_irrefl _)]
    cases rsi with
    | none => simp
    | some r => dsimp only; split <;> simp
  · intro hsp hpr hd
    rw [check_confirmation_eq, if_neg (not_lt.mpr hsp), if_neg (hprobe hpr),
      if_pos (by omega)]
  · intro hbuy hsp hpr hd
    rw [check_confirmation_eq, if_neg (not_lt.mpr hsp), if_neg (hprobe hpr),
      if_neg (not_lt.mpr hd), hbuy]
    dsimp only
    rw [if_pos (by simp [rsi_blocked])]
  · intro hbuy hsp hpr hd
    rw [check_confirmation_eq, if_neg (not_lt.mpr hsp), if_neg (hprobe hpr),
      if_neg (not_lt.mpr hd), hbuy]
    dsimp only
    rw [if_neg]
    simp only [rsi_blocked, decide_eq_true_eq, not_le, ge_iff_le]
    exact sub_lt_self _ one_pos

/-- C7 witness: the boundary behaviours at a concrete input — spread
exactly 50 passes, 51 is rejected; dwell exactly 2 passes, dwell 1 (with
`min_zone_ticks = 2`) is rejected; RSI exactly 70 is rejected for Buy and
69 confirms. -/
theorem c7_witness :
    ((67077 : ℚ) - 67027 = exampleConfig.max_spread
      ∧ check_confirmation 67027 67077 exampleZone Direction.Buy
          (exampleBuffer [66980, 66995, 67010, 67020]) none exampleConfig
        ≠ ConfirmationResult.Rejected "spread too wide")
    ∧ ((67078 : ℚ) - 67027 > exampleConfig.max_spread
      ∧ check_confirmation 67027 67078 exampleZone Direction.Buy
          (exampleBuffer [66980, 66995, 67010, 67020]) none exampleConfig
        = ConfirmationResult.Rejected "spread too wide")
    ∧ (dwell_total exampleZone (exampleBuffer [66980, 67020]) ((67025 + 67027) / 2)
        = exampleConfig.min_zone_ticks
      ∧ check_confirmation 67025 67027 exampleZone Direction.Buy
          (exampleBuffer [66980, 67020]) none exampleConfig
        ≠ ConfirmationResult.Rejected "insufficient zone dwell")
    ∧ (dwell_total exampleZone (exampleBuffer [66980, 66990]) ((67025 + 67027) / 2) + 1
        = exampleConfig.min_zone_ticks
      ∧ check_confirmation 67025 67027 exampleZone Direction.Buy
          (exampleBuffer [66980, 66990]) none exampleConfig
        = ConfirmationResult.Rejected "insufficient zone dwell")
    ∧ check_confirmation 67025 67027 exampleZone Direction.Buy
        (exampleBuffer [66980, 66995, 67010, 67020]) (some 70) exampleConfig
      = ConfirmationResult.Rejected "rsi out of range"
    ∧ check_confirmation 67025 67027 exampleZone Direction.Buy
        (exampleBuffer [66980, 66995, 67010, 67020]) (some 69) exampleConfig
      = ConfirmationResult.Confirmed := by
  have h1 := (c7_confirmation_boundaries 67027 67077 exampleZone Direction.Buy
    (exampleBuffer [66980, 66995, 67010, 67020]) none exampleConfig).1 (by decide)
  have h2 := (c7_confirmation_boundaries 67027 67078 exampleZone Direction.Buy
    (exampleBuffer [66980, 66995, 67010, 67020]) none exampleConfig).2.1 (by decide)
  have h3 := (c7_confirmation_boundaries 67025 67027 exampleZone Direction.Buy
    (exampleBuffer [66980, 67020]) none exampleConfig).2.2.1 (by decide)
    (Or.inr (by decide)) (by decide)
  have h4 := (c7_confirmation_boundaries 67025 67027 exampleZone Direction.Buy
    (exampleBuffer [66980, 66990]) none exampleConfig).2.2.2.1 (by decide)
    (Or.inr (by decide)) (by decide)
  have h5 := (c7_confirmation_boundaries 67025 67027 exampleZone Direction.Buy
    (exampleBuffer [66980, 66995, 67010, 67020]) none exampleConfig).2.2.2.2.1 rfl
    (by decide) (Or.inr (by decide)) (by decide)
  have h6 := (c7_confirmation_boundaries 67025 67027 exampleZone Direction.Buy
    (exampleBuffer [66980, 66995, 67010, 67020]) none exampleConfig).2.2.2.2.2 rfl
    (by decide) (Or.inr (by decide)) (by decide)
  exact ⟨⟨by decide, h1⟩, ⟨by decide, h2⟩, ⟨by decide, h3⟩, ⟨by decide, h4⟩,
    by simpa using h5, by simpa using h6⟩

theorem probe_found_buy_false_iff (zone : EntryZone) (buffer : List RecentTick)
    (lookback : Nat) :
    probe_found zone Direction.Buy buffer lookback = false
      ↔ ∀ t ∈ buffer.reverse.take (min buffer.length lookback),
          ¬ (t.mid < zone.low) := by
  simp [probe_found, List.any_eq_true]

theorem probe_found_sell_false_iff (zone : EntryZone) (buffer : List RecentTick)
    (lookback : Nat) :
    probe_found zone Direction.Sell buffer lookback = false
      ↔ ∀ t ∈ buffer.reverse.take (min buffer.length lookback),
          ¬ (t.mid > zone.high) := by
  simp [probe_found, List.any_eq_true]

theorem check_confirmation_past_probe (bid ask : ℚ) (zone : EntryZone)
    (dir : Direction) (buffer : List RecentTick) (rsi : Option ℚ)
    (cfg : ConfirmationConfig)
    (hsp : ask - bid ≤ cfg.max_spread)
    (hpr : ¬ (cfg.require_zone_probe = true
      ∧ probe_found zone dir buffer cfg.probe_lookback = false)) :
    check_confirmation bid ask zone dir buffer rsi cfg
      ≠ ConfirmationResult.Rejected "no zone probe detected" := by
  rw [check_confirmation_eq, if_neg (not_lt.mpr hsp), if_neg hpr]
  split
  · simp
  · cases rsi with
    | none => simp
    | some r => dsimp only; split <;> simp

/-- C8: the zone-probe gate.  With the spread gate passed and
`require_zone_probe` on, `check_confirmation` returns
`Rejected "no zone probe detected"` exactly when none of the
`min(probe_lookback, buffer length)` most-recent buffer entries has
`mid < zone.low` (Buy) respectively `mid > zone.high` (Sell); with
`require_zone_probe` off the probe rejection can never occur. -/
theorem c8_zone_probe_gate (bid ask : ℚ) (zone : EntryZone)
    (buffer : List RecentTick) (rsi : Option ℚ) (cfg : ConfirmationConfig)
    (hsp : ask - bid ≤ cfg.max_spread) :
    (cfg.require_zone_probe = true →
      (check_confirmation bid ask zone Direction.Buy buffer rsi cfg
          = ConfirmationResult.Rejected "no zone probe detected"
        ↔ ∀ t ∈ buffer.reverse.take (min buffer.length cfg.probe_lookback),
            ¬ (t.mid < zone.low)))
    ∧ (cfg.require_zone_probe = true →
      (check_confirmation bid ask zone Direction.Sell buffer rsi cfg
          = ConfirmationResult.Rejected "no zone probe detected"
        ↔ ∀ t ∈ buffer.reverse.take (min buffer.length cfg.probe_lookback),
            ¬ (t.mid > zone.high)))
    ∧ (∀ dir, cfg.require_zone_probe = false →
      check_confirmation bid ask zone dir buffer rsi cfg
        ≠ ConfirmationResult.Rejected "no zone probe detected") := by
  refine ⟨?_, ?_, ?_⟩
  · intro hreq
    constructor
    · intro hres
      rw [← probe_found_buy_false_iff]
      by_contra hfound
      exact check_confirmation_past_probe bid ask zone Direction.Buy buffer rsi cfg
        hsp (fun hc => hfound hc.2) hres
    · intro hnone
      rw [check_confirmation_eq, if_neg (not_lt.mpr hsp),
        if_pos ⟨hreq, (probe_found_buy_false_iff zone buffer cfg.probe_lookback).mpr hnone⟩]
  · intro hreq
    constructor
    · intro hres
      rw [← probe_found_sell_false_iff]
      by_contra hfound
      exact check_confirmation_past_probe bid ask zone Direction.Sell buffer rsi cfg
        hsp (fun hc => hfound hc.2) hres
    · intro hnone
      rw [check_confirmation_eq, if_neg (not_lt.mpr hsp),
        if_pos ⟨hreq, (probe_found_sell_false_iff zone buffer cfg.probe_lookback).mpr hnone⟩]
  · intro dir hreq
    exact check_confirmation_past_probe bid ask zone dir buffer rsi cfg hsp
      (fun hc => by rw [hreq] at hc; exact Bool.false_ne_true hc.1)

/-- C8 witness: spec scenario 2 — an all-in-zone buffer yields the probe
rejection for Buy (every recent mid is at least `zone.low`), while the
same inputs with `require_zone_probe` off do not produce it. -/
theorem c8_witness :
    (check_confirmation 67020 67022 exampleZone Direction.Buy
        (exampleBuffer [67010, 67015, 67020]) none exampleConfig
      = ConfirmationResult.Rejected "no zone probe detected")
    ∧ check_confirmation 67020 67022 exampleZone Direction.Buy
        (exampleBuffer [67010, 67015, 67020]) none
        { exampleConfig with require_zone_probe := false }
      ≠ ConfirmationResult.Rejected "no zone probe detected" := by
  constructor
  · exact ((c8_zone_probe_gate 67020 67022 exampleZone
      (exampleBuffer [67010, 67015, 67020]) none exampleConfig (by decide)).1
      rfl).mpr (by decide)
  · exact (c8_zone_probe_gate 67020 67022 exampleZone
      (exampleBuffer [67010, 67015, 67020]) none
      { exampleConfig with require_zone_probe := false } (by decide)).2.2
      Direction.Buy rfl

/-- C6: executor success contract.  For a non-mock endpoint `fire_trade`
succeeds exactly when the HTTP exchange produced a 2xx response whose
body parsed and whose retcode is 10009; a parsed 2xx response with any
other retcode yields an `ExecutionError` carrying the broker comment; and
the sentinel endpoint `"mock"` short-circuits — ignoring the network
entirely — with the synthetic ticket-999999 success. -/
theorem c6_fire_trade_contract (mt5_base_url : String) (http : HttpOutcome) :
    (mt5_base_url ≠ "mock" →
      ((∃ resp, fire_trade mt5_base_url http = Except.ok resp)
        ↔ (∃ status body resp, http = HttpOutcome.Response status body (some resp)
            ∧ http_success status = true ∧ resp.retcode = 10009)))
    ∧ (mt5_base_url ≠ "mock" →
      ∀ status body resp, http = HttpOutcome.Response status body (some resp) →
      http_success status = true → resp.retcode ≠ 10009 →
      fire_trade mt5_base_url http = Except.error (AppError.ExecutionError
        ("MT5 rejected: retcode=" ++ toString resp.retcode
          ++ " comment=" ++ resp.comment.getD "unknown")))
    ∧ fire_trade "mock" http
        = Except.ok ⟨10009, some 999999, some "Mock Order"⟩ := by
  have hmockeq : ∀ s : String, s ≠ "mock" → (s == "mock") = false := by
    intro s hs
    exact beq_eq_false_iff_ne.mpr hs
  refine ⟨?_, ?_, ?_⟩
  · intro hnm
    constructor
    · rintro ⟨resp, hresp⟩
      cases http with
      | NetErr msg => simp [fire_trade, hmockeq _ hnm] at hresp
      | Response status body parsed =>
        cases parsed with
        | none =>
          by_cases hok : http_success status = false
          · simp [fire_trade, hmockeq _ hnm, hok] at hresp
          · simp [fire_trade, hmockeq _ hnm, hok] at hresp
        | some r =>
          by_cases hok : http_success status = false
          · simp [fire_trade, hmockeq _ hnm, hok] at hresp
          · by_cases hrc : r.retcode = 10009
            · refine ⟨status, body, r, rfl, ?_, hrc⟩
              revert hok
              cases http_success status <;> simp
            · simp [fire_trade, hmockeq _ hnm, hok, hrc] at hresp
    · rintro ⟨status, body, resp, hhttp, hok, hrc⟩
      subst hhttp
      exact ⟨resp, by simp [fire_trade, hmockeq _ hnm, hok, hrc]⟩
  · intro hnm status body resp hhttp hok hrc
    subst hhttp
    simp [fire_trade, hmockeq _ hnm, hok, hrc]
  · rfl

/-- C6 witness: at concrete inputs — a parsed 200 response with retcode
10009 succeeds, retcode 10013 is rejected with an `ExecutionError`
carrying the broker comment, and the `"mock"` endpoint returns the
synthetic success even when the network would have failed. -/
theorem c6_witness :
    (∃ resp, fire_trade "http://localhost:8081"
        (HttpOutcome.Response 200 "" (some ⟨10009, some 42, some "Request completed"⟩))
      = Except.ok resp)
    ∧ fire_trade "http://localhost:8081"
        (HttpOutcome.Response 200 "" (some ⟨10013, none, some "Invalid request"⟩))
      = Except.error (AppError.ExecutionError
          "MT5 rejected: retcode=10013 comment=Invalid request")
    ∧ fire_trade "mock" (HttpOutcome.NetErr "connection refused")
      = Except.ok ⟨10009, some 999999, some "Mock Order"⟩ := by
  refine ⟨?_, ?_, ?_⟩
  · exact ((c6_fire_trade_contract "http://localhost:8081"
      (HttpOutcome.Response 200 "" (some ⟨10009, some 42, some "Request completed"⟩))).1 (by decide)).mpr
      ⟨200, "", _, rfl, by decide, rfl⟩
  · have h := (c6_fire_trade_contract "http://localhost:8081"
      (HttpOutcome.Response 200 "" (some ⟨10013, none, some "Invalid request"⟩))).2.1
      (by decide) 200 "" ⟨10013, none, some "Invalid request"⟩ rfl (by decide) (by decide)
    rw [h]
    rfl
  · exact (c6_fire_trade_contract "mock"
      (HttpOutcome.NetErr "connection refused")).2.2

/-- C1 counterexample: `badPlan` violates every §3 ingest invariant, yet
`set_strategy` (routes/brain.rs) accepts it with `ok = true` / HTTP 201
and installs it as the active plan — the very field `evaluate_tick` reads
at its step 3. -/
theorem c1_invalid_plan_installed :
    plan_invariants badPlan = false
    ∧ (set_strategy st0 badPlan).1.ok = true
    ∧ (set_strategy st0 badPlan).1.status = 201
    ∧ (set_strategy st0 badPlan).2.active_strategy = some badPlan :=
  ⟨by decide, rfl, rfl, rfl⟩

/-- C1 (amended): plan ingest performs no invariant validation — every
deserializable plan, including one for which the §3 invariants fail, is
accepted by `set_strategy` with a 201 response and becomes the active
plan visible to `evaluate_tick`. -/
theorem c1_set_strategy_installs_unvalidated (st : AppState)
    (s : ActiveStrategy) (_h : plan_invariants s = false) :
    (set_strategy st s).1.ok = true
    ∧ (set_strategy st s).1.status = 201
    ∧ (set_strategy st s).2.active_strategy = some s :=
  ⟨rfl, rfl, rfl⟩

/-- C1 witness: the amended theorem applied to the concrete invalid
`badPlan` on a fresh state. -/
theorem c1_witness :
    plan_invariants badPlan = false
    ∧ ((set_strategy st0 badPlan).1.ok = true
      ∧ (set_strategy st0 badPlan).1.status = 201
      ∧ (set_strategy st0 badPlan).2.active_strategy = some badPlan) :=
  ⟨by decide, c1_set_strategy_installs_unvalidated st0 badPlan (by decide)⟩

/-- C4 counterexample: in the history `[recA, recB]`, `recB` is the unique
record whose broker ticket matches the payload, yet
`handle_position_close` fills the close fields of `recA` (an earlier
symbol-only match) and leaves `recB` untouched — the lookup is a single
`ticket-or-symbol` pass, not ticket-first. -/
theorem c4_ticket_not_prioritized :
    (recB.mt5_ticket == closePayload.mt5_ticket) = true
    ∧ (recA.mt5_ticket == closePayload.mt5_ticket) = false
    ∧ (recA.symbol == closePayload.symbol) = true
    ∧ (handle_position_close 99 closeState closePayload).2.trade_history
        = [fill_close closePayload 99 recA, recB]
    ∧ recB.close_price = none := by
  refine ⟨by decide, by decide, by decide, by decide, rfl⟩

/-- C4 (amended): for every close notification handled while a position is
open, the handler updates the first record (in history order) satisfying
the single disjunctive predicate `ticket == payload.ticket || symbol ==
payload.symbol` — with no priority for ticket matches — filling that
record's `close_price`, `profit_pips`, `close_reason` and `closed_at` and
leaving every other record unchanged; the open position is cleared. -/
theorem c4_close_updates_first_or_match (now : Int) (st : AppState)
    (payload : PositionClosePayload) (pos : OpenPosition)
    (pre : List TradeRecord) (r : TradeRecord) (post : List TradeRecord)
    (hpos : st.open_position = some pos)
    (hhist : st.trade_history = pre ++ r :: post)
    (hpre : ∀ x ∈ pre, close_matches payload x = false)
    (hr : close_matches payload r = true) :
    (handle_position_close now st payload).2.trade_history
      = pre ++ fill_close payload now r :: post
    ∧ (fill_close payload now r).close_price = some payload.close_price
    ∧ (fill_close payload now r).profit_pips = some payload.profit_pips
    ∧ (fill_close payload now r).close_reason = some payload.close_reason
    ∧ (fill_close payload now r).closed_at = some now
    ∧ (handle_position_close now st payload).2.open_position = none := by
  have hmain : handle_position_close now st payload
      = (CloseResponse.closed pos.symbol,
         { st with open_position := none
                   trade_history := update_first (close_matches payload)
                     (fill_close payload now) st.trade_history }) := by
    unfold handle_position_close
    rw [hpos]
  rw [hmain]
  exact ⟨by rw [hhist]; exact update_first_append _ _ _ _ _ hpre hr,
    rfl, rfl, rfl, rfl, rfl⟩

/-- C4 witness: the amended theorem applied to the concrete close of
`closeState` — `recA` is the first `ticket-or-symbol` match and gets its
close fields filled. -/
theorem c4_witness :
    (handle_position_close 99 closeState closePayload).2.trade_history
      = [] ++ fill_close closePayload 99 recA :: [recB]
    ∧ (fill_close closePayload 99 recA).close_price = some closePayload.close_price
    ∧ (fill_close closePayload 99 recA).profit_pips = some closePayload.profit_pips
    ∧ (fill_close closePayload 99 recA).close_reason = some closePayload.close_reason
    ∧ (fill_close closePayload 99 recA).closed_at = some 99
    ∧ (handle_position_close 99 closeState closePayload).2.open_position = none :=
  c4_close_updates_first_or_match 99 closeState closePayload examplePosition
    [] recA [recB] rfl rfl (by simp) (by decide)

/-- C5 counterexample: with `max_consecutive_failures = 1`, kill switch
off and no cooldown (`cooldown_secs = 0`), one `record_failure` followed
by `pre_trade_check` does NOT auto-kill when the daily cap is already
consumed: the daily-limit check (step 3) fires first, the decision is the
daily-limit block, and `is_killed` stays `false`. -/
theorem c5_daily_limit_preempts_auto_kill :
    cfgC5.max_consecutive_failures = 1
    ∧ innerC5.is_killed = false
    ∧ in_cooldown cfgC5 0 (record_failure 0 innerC5) = false
    ∧ (record_failure 0 innerC5).consecutive_failures = 1
    ∧ (pre_trade_check cfgC5 0 0 (record_failure 0 innerC5)).1
        = RiskDecision.Blocked "Daily trade limit reached: 1/1"
    ∧ (pre_trade_check cfgC5 0 0 (record_failure 0 innerC5)).1
        ≠ RiskDecision.Blocked "Auto-kill: 1 consecutive execution failures"
    ∧ ((pre_trade_check cfgC5 0 0 (record_failure 0 innerC5)).2).is_killed = false := by
  decide

/-- C5 (amended): with `max_consecutive_failures = N > 0`, after `N`
consecutive `record_failure` calls with no intervening `record_success`,
the next `pre_trade_check` — assuming the kill switch was not already
active, no cooldown applies, and additionally the daily trade limit is
not yet reached (the daily-cap check precedes the auto-kill check) —
returns `Blocked` with the auto-kill reason and sets `is_killed`. -/
theorem c5_auto_kill_after_failures (cfg : RiskConfig) (inner : RiskInner)
    (N : Nat) (t today now : Int)
    (hN : cfg.max_consecutive_failures = N) (hpos : 0 < N)
    (hkill : inner.is_killed = false)
    (hcool : ¬ (now - t < (cfg.cooldown_secs_after_failure : Int)))
    (hday : ¬ (0 < cfg.max_trades_per_day
      ∧ (daily_reset today inner).trades_today ≥ cfg.max_trades_per_day)) :
    (pre_trade_check cfg today now ((fun i => record_failure t i)^[N] inner)).1
      = RiskDecision.Blocked ("Auto-kill: "
          ++ toString (inner.consecutive_failures + N)
          ++ " consecutive execution failures")
    ∧ ((pre_trade_check cfg today now
        ((fun i => record_failure t i)^[N] inner)).2).is_killed = true := by
  obtain ⟨m, rfl⟩ : ∃ m, N = m + 1 := ⟨N - 1, by omega⟩
  rw [record_failure_iterate]
  unfold pre_trade_check
  by_cases hdr : today > inner.daily_reset_date
  all_goals
    simp only [daily_reset, hdr, if_true, if_false, reduceIte] at hday ⊢
    rw [if_neg (by simpa using hkill)]
    rw [if_neg (by simp only [in_cooldown, decide_eq_true_eq]; exact hcool)]
    rw [if_neg (by simpa using hday)]
    rw [if_pos (by constructor <;> omega)]
    exact ⟨rfl, rfl⟩

/-- C5 witness: the amended theorem at `N = 3` with the default risk
config (cap 10, auto-kill 3, cooldown 300s): three failures at `t = 0`
and a check at `now = 400` on a fresh state auto-kill with the reason
string of the spec's scenario 6. -/
theorem c5_witness :
    (pre_trade_check defaultRiskConfig 0 400
        ((fun i => record_failure 0 i)^[3] emptyRisk)).1
      = RiskDecision.Blocked ("Auto-kill: " ++ toString (0 + 3)
          ++ " consecutive execution failures")
    ∧ ((pre_trade_check defaultRiskConfig 0 400
        ((fun i => record_failure 0 i)^[3] emptyRisk)).2).is_killed = true :=
  c5_auto_kill_after_failures defaultRiskConfig emptyRisk 3 0 0 400
    rfl (by decide) rfl (by decide) (by decide)

/-- C2: trigger-dispatch interlock.  When the risk check blocks a
trigger, `handle_tick` answers without touching the active plan; when the
risk check approves, the state handed to the broker call has the active
plan already consumed (`none`); and `evaluate_tick` on any state with no
active plan — in particular any tick processed during the broker I/O —
returns `NoAction`. -/
theorem c2_trigger_dispatch_interlock (now today : Int) (trade_id : String)
    (st : AppState) (tick : TickData) :
    (stage_is_blocked (handle_tick_pre now today trade_id st tick) = true →
      (stage_state (handle_tick_pre now today trade_id st tick)).active_strategy
        = st.active_strategy)
    ∧ (stage_is_call (handle_tick_pre now today trade_id st tick) = true →
      (stage_state (handle_tick_pre now today trade_id st tick)).active_strategy
        = none)
    ∧ (∀ (st2 : AppState) (tick2 : TickData), st2.active_strategy = none →
      (evaluate_tick now tick2 st2).1 = TradeSignal.NoAction) := by
  rcases hev : evaluate_tick now tick st with ⟨signal, stE⟩
  have hactive : stE.active_strategy = st.active_strategy := by
    have h := evaluate_tick_active_strategy now tick st
    rw [hev] at h
    exact h
  refine ⟨?_, ?_, fun st2 tick2 h2 => evaluate_tick_no_plan now tick2 st2 h2⟩
  · unfold handle_tick_pre
    rw [hev]
    cases signal with
    | NoAction => simp [stage_is_blocked]
    | Trigger strategy =>
      dsimp only
      rcases hpc : pre_trade_check stE.risk_config today now stE.risk with ⟨dec, risk1⟩
      cases dec with
      | Blocked reason =>
        intro _
        simpa [stage_state] using hactive
      | Approved =>
        dsimp only
        cases hbo : build_order strategy.symbol strategy.direction
            (match strategy.direction with
              | Direction.Buy => tick.ask
              | Direction.Sell => tick.bid
              | Direction.NoTrade => tick.effective_mid)
            strategy.stop_loss strategy.take_profit strategy.lot_size
            strategy.strategy_id with
        | error e => simp [stage_is_blocked]
        | ok order => simp [stage_is_blocked]
  · unfold handle_tick_pre
    rw [hev]
    cases signal with
    | NoAction => simp [stage_is_call]
    | Trigger strategy =>
      dsimp only
      rcases hpc : pre_trade_check stE.risk_config today now stE.risk with ⟨dec, risk1⟩
      cases dec with
      | Blocked reason => simp [stage_is_call]
      | Approved =>
        dsimp only
        cases hbo : build_order strategy.symbol strategy.direction
            (match strategy.direction with
              | Direction.Buy => tick.ask
              | Direction.Sell => tick.bid
              | Direction.NoTrade => tick.effective_mid)
            strategy.stop_loss strategy.take_profit strategy.lot_size
            strategy.strategy_id with
        | error e => simp [stage_is_call]
        | ok order => intro _; rfl

/-- C2 witness: on the concrete armed state the approved trigger reaches
the broker stage with the plan consumed; with the kill switch latched the
dispatch stops at the risk block leaving the plan untouched; and a fresh
state with no plan yields `NoAction`. -/
theorem c2_witness :
    (stage_is_blocked (handle_tick_pre 0 0 "trade-1" killedState exampleTick) = true
      ∧ (stage_state (handle_tick_pre 0 0 "trade-1" killedState exampleTick)).active_strategy
        = killedState.active_strategy)
    ∧ (stage_is_call (handle_tick_pre 0 0 "trade-1" armedState exampleTick) = true
      ∧ (stage_state (handle_tick_pre 0 0 "trade-1" armedState exampleTick)).active_strategy
        = none)
    ∧ (evaluate_tick 0 exampleTick st0).1 = TradeSignal.NoAction :=
  ⟨⟨by decide, (c2_trigger_dispatch_interlock 0 0 "trade-1" killedState
      exampleTick).1 (by decide)⟩,
   ⟨by decide, (c2_trigger_dispatch_interlock 0 0 "trade-1" armedState
      exampleTick).2.1 (by decide)⟩,
   (c2_trigger_dispatch_interlock 0 0 "trade-1" st0 exampleTick).2.2
      st0 exampleTick rfl⟩

/-- C9: tick-buffer invariant.  `evaluate_tick` transforms the buffer
keyed by the tick's symbol by exactly one pop/push step — so after the
call, whatever the gate outcome, its newest element is the tick's
`RecentTick` sample — and that step keeps the buffer within
`TICK_BUFFER_SIZE = 30` entries, evicting the oldest entry FIFO when the
buffer is full. -/
theorem c9_tick_buffer_invariant (now : Int) (tick : TickData) (st : AppState)
    (hlen : (get_tick_buffer st tick.symbol).length ≤ TICK_BUFFER_SIZE) :
    get_tick_buffer (evaluate_tick now tick st).2 tick.symbol
      = record_tick_buffer (get_tick_buffer st tick.symbol) tick.bid tick.ask
    ∧ (get_tick_buffer (evaluate_tick now tick st).2 tick.symbol).getLast?
      = some (RecentTick.new tick.bid tick.ask)
    ∧ (get_tick_buffer (evaluate_tick now tick st).2 tick.symbol).length
      ≤ TICK_BUFFER_SIZE
    ∧ ((get_tick_buffer st tick.symbol).length = TICK_BUFFER_SIZE →
      get_tick_buffer (evaluate_tick now tick st).2 tick.symbol
        = (get_tick_buffer st tick.symbol).drop 1
            ++ [RecentTick.new tick.bid tick.ask]) := by
  have h1 : get_tick_buffer (evaluate_tick now tick st).2 tick.symbol
      = record_tick_buffer (get_tick_buffer st tick.symbol) tick.bid tick.ask := by
    unfold get_tick_buffer
    rw [evaluate_tick_tick_buffer, buflookup_bufupdate_self]
  refine ⟨h1, ?_, ?_, ?_⟩
  · rw [h1]
    exact record_tick_buffer_getLast _ _ _
  · rw [h1]
    exact record_tick_buffer_length_le _ _ _ hlen
  · intro hfull
    rw [h1]
    exact record_tick_buffer_full _ _ _ hfull

/-- C9 witness: the invariant at two concrete states — the four-entry
armed buffer and a buffer already at capacity 30, where the oldest entry
is evicted. -/
theorem c9_witness :
    (get_tick_buffer (evaluate_tick 0 exampleTick armedState).2 "BTCUSD"
      = record_tick_buffer (get_tick_buffer armedState "BTCUSD") 67025 67027
    ∧ (get_tick_buffer (evaluate_tick 0 exampleTick armedState).2 "BTCUSD").getLast?
      = some (RecentTick.new 67025 67027)
    ∧ (get_tick_buffer (evaluate_tick 0 exampleTick armedState).2 "BTCUSD").length
      ≤ TICK_BUFFER_SIZE)
    ∧ ((get_tick_buffer fullBufState "BTCUSD").length = TICK_BUFFER_SIZE
    ∧ get_tick_buffer (evaluate_tick 0 exampleTick fullBufState).2 "BTCUSD"
      = (get_tick_buffer fullBufState "BTCUSD").drop 1
          ++ [RecentTick.new 67025 67027]) := by
  have h := c9_tick_buffer_invariant 0 exampleTick armedState (by decide)
  have hfull := c9_tick_buffer_invariant 0 exampleTick fullBufState (by decide)
  exact ⟨⟨h.1, h.2.1, h.2.2.1⟩, ⟨by decide, hfull.2.2.2 (by decide)⟩⟩

/-- C10: single open-position slot.  The shared state stores at most one
position (an `Option`); the double-entry guard `has_open_position_for`
answers exactly the exact-string-equality test on the stored position's
symbol — so a position on one symbol never blocks a different symbol —
and the broker-success branch of `handle_tick` overwrites the stored
position with the newly opened one unconditionally. -/
theorem c10_single_position_slot :
    (∀ st : AppState, (st.open_position.elim 0 (fun _ => 1)) ≤ 1)
    ∧ (∀ (st : AppState) (p : OpenPosition) (sym : String),
        st.open_position = some p →
        has_open_position_for st sym = (p.symbol == sym))
    ∧ (∀ (st : AppState) (p : OpenPosition) (sym : String),
        st.open_position = some p → p.symbol ≠ sym →
        has_open_position_for st sym = false)
    ∧ (∀ (position_id : String) (now : Int) (pb : PreBroker)
        (mt5_resp : Mt5OrderResponse),
        (handle_tick_post position_id now pb (Except.ok mt5_resp)).2.open_position
          = some { OpenPosition.from_strategy position_id now pb.strategy
                    pb.entry_price with mt5_ticket := mt5_resp.order }) := by
  refine ⟨?_, ?_, ?_, ?_⟩
  · intro st
    cases st.open_position <;> simp
  · intro st p sym hp
    unfold has_open_position_for
    rw [hp]
  · intro st p sym hp hne
    unfold has_open_position_for
    rw [hp]
    exact beq_eq_false_iff_ne.mpr hne
  · intro position_id now pb mt5_resp
    rfl

/-- C10 witness: with the BTCUSD position of `closeState` open, the guard
answers `true` for `"BTCUSD"` and `false` for the different symbol
`"XAUUSD"`; and a concrete successful broker response overwrites the
stored position with the one derived from the triggering strategy. -/
theorem c10_witness :
    has_open_position_for closeState "BTCUSD" = (examplePosition.symbol == "BTCUSD")
    ∧ has_open_position_for closeState "XAUUSD" = false
    ∧ (handle_tick_post "pos-9" 0 examplePreBroker
        (Except.ok ⟨10009, some 77, some "done"⟩)).2.open_position
      = some { OpenPosition.from_strategy "pos-9" 0 examplePreBroker.strategy
                examplePreBroker.entry_price with mt5_ticket := some 77 } :=
  ⟨(c10_single_position_slot).2.1 closeState examplePosition "BTCUSD" rfl,
   (c10_single_position_slot).2.2.1 closeState examplePosition "XAUUSD" rfl
     (by decide),
   (c10_single_position_slot).2.2.2 "pos-9" 0 examplePreBroker
     ⟨10009, some 77, some "done"⟩⟩

/-- C3 (supporting theorem for the code_bug): reading the ill-typed
8-argument call at backtest.rs line 166 positionally — its sixth argument,
the literal `None`, occupying the `rsi` parameter of the 7-parameter
`check_confirmation` — the backtest and the live reflex path agree: after
replaying any same-symbol tick list, the live per-symbol buffer equals the
backtest buffer, and on any further tick carrying no RSI the confirmation
call made by `evaluate_tick` (which passes `tick.rsi_14`) returns exactly
what the backtest's call with `none` returns. -/
theorem c3_backtest_live_gate_agree (now : Int) (sym : String)
    (ticks : List TickData) (st : AppState)
    (hsym : ∀ t ∈ ticks, t.symbol = sym)
    (hinit : buflookup st.tick_buffer sym = []) :
    buflookup (live_replay now ticks st).tick_buffer sym = simulate_buffer ticks
    ∧ ∀ (zone : EntryZone) (dir : Direction) (cfg : ConfirmationConfig)
        (t : TickData), t.rsi_14 = none →
        check_confirmation t.bid t.ask zone dir
            (buflookup (live_replay now ticks st).tick_buffer sym) t.rsi_14 cfg
          = check_confirmation t.bid t.ask zone dir (simulate_buffer ticks)
              none cfg := by
  have h1 : buflookup (live_replay now ticks st).tick_buffer sym
      = simulate_buffer ticks := by
    rw [live_replay_buffer now sym ticks st hsym, hinit]
    rfl
  refine ⟨h1, ?_⟩
  intro zone dir cfg t hrsi
  rw [h1, hrsi]

/-- C3 witness: two concrete BTCUSD ticks replayed from a fresh state
give identical live and backtest buffers, and the RSI-less gate calls
coincide. -/
theorem c3_witness :
    buflookup (live_replay 0 replayTicks st0).tick_buffer "BTCUSD"
      = simulate_buffer replayTicks
    ∧ check_confirmation exampleTick.bid exampleTick.ask exampleZone Direction.Buy
        (buflookup (live_replay 0 replayTicks st0).tick_buffer "BTCUSD")
        exampleTick.rsi_14 exampleConfig
      = check_confirmation exampleTick.bid exampleTick.ask exampleZone Direction.Buy
        (simulate_buffer replayTicks) none exampleConfig := by
  have h := c3_backtest_live_gate_agree 0 "BTCUSD" replayTicks st0
    (by decide) rfl
  exact ⟨h.1, h.2 exampleZone Direction.Buy exampleConfig exampleTick rfl⟩
